import Mathlib

/-!
Verification of the geographic corridor-filtering engine of the Flight-Tracker
repository (src/src/utils/geo.js, src/src/data/landmarks.js, and the map module
containing filterLandmarksInCorridor).

Modelling conventions:
* JS numbers are modelled as real numbers (ℝ).  JS `Infinity`, which appears
  only as the initial accumulator of the minimum-distance fold and as the
  value returned when every segment is skipped, is modelled by `Option ℝ`
  with `none` standing for `Infinity`.
* `Math.atan2`, `Math.asin`, `Math.sin`, `Math.cos`, `Math.sqrt` are modelled
  by the corresponding real functions; `Math.atan2 y x` is given its standard
  piecewise definition in terms of `Real.arctan`.
* The `normalizeAngle` subtract/add-2π loop is given in closed form (the loop
  subtracts 2π exactly `⌈(angle-π)/(2π)⌉` times when `angle > π`, and dually).
* JS object field access and the `{lat, lon}` record copies are modelled by
  structures and structure eta.
-/

namespace Corridor

open Classical

/-- A latitude/longitude pair in degrees (geo.js `{lat, lon}` objects). -/
structure Point where
  lat : ℝ
  lon : ℝ

/-- geo.js `toRad`: degrees to radians. -/
noncomputable def toRad (deg : ℝ) : ℝ := deg * Real.pi / 180

/-- JS `Math.atan2 y x` (standard piecewise definition over the reals;
signed zeros do not exist in the real model). -/
noncomputable def atan2 (y x : ℝ) : ℝ :=
  if 0 < x then Real.arctan (y / x)
  else if x < 0 then
    (if 0 ≤ y then Real.arctan (y / x) + Real.pi else Real.arctan (y / x) - Real.pi)
  else
    (if 0 < y then Real.pi / 2 else if y < 0 then -(Real.pi / 2) else 0)

/-- geo.js `haversineDistance` (lines 218-230): haversine distance in km,
Earth radius 6371 km. -/
noncomputable def haversineDistance (point1 point2 : Point) : ℝ :=
  let dLat := toRad (point2.lat - point1.lat)
  let dLon := toRad (point2.lon - point1.lon)
  let lat1 := toRad point1.lat
  let lat2 := toRad point2.lat
  let a := Real.sin (dLat / 2) * Real.sin (dLat / 2) +
    Real.sin (dLon / 2) * Real.sin (dLon / 2) * Real.cos lat1 * Real.cos lat2
  let c := 2 * atan2 (Real.sqrt a) (Real.sqrt (1 - a))
  6371 * c

/-- The fold `minLat = Math.min(minLat, airport.lat)` of geo.js
`createBoundingBox`, started at the first element (the JS code starts from
`Infinity`, so for a nonempty list the two agree; the empty case, for which
the JS code would keep `Infinity`, is unreachable behind the caller's guard
and mapped to the junk value 0). -/
noncomputable def boxMinLat : List Point → ℝ
  | [] => 0
  | w :: ws => ws.foldl (fun m a => min m a.lat) w.lat

/-- Fold for `maxLat` of geo.js `createBoundingBox` (see `boxMinLat`). -/
noncomputable def boxMaxLat : List Point → ℝ
  | [] => 0
  | w :: ws => ws.foldl (fun m a => max m a.lat) w.lat

/-- Fold for `minLon` of geo.js `createBoundingBox` (see `boxMinLat`). -/
noncomputable def boxMinLon : List Point → ℝ
  | [] => 0
  | w :: ws => ws.foldl (fun m a => min m a.lon) w.lon

/-- Fold for `maxLon` of geo.js `createBoundingBox` (see `boxMinLat`). -/
noncomputable def boxMaxLon : List Point → ℝ
  | [] => 0
  | w :: ws => ws.foldl (fun m a => max m a.lon) w.lon

/-- The divisor `111 * Math.cos(toRad((minLat + maxLat) / 2))` of the
longitude buffer in geo.js `createBoundingBox` (line 260). -/
noncomputable def lonDivisor (routeAirports : List Point) : ℝ :=
  111 * Real.cos (toRad ((boxMinLat routeAirports + boxMaxLat routeAirports) / 2))

/-- The `{minLat, maxLat, minLon, maxLon}` record returned by geo.js
`createBoundingBox`. -/
structure BoundingBox where
  minLat : ℝ
  maxLat : ℝ
  minLon : ℝ
  maxLon : ℝ

/-- geo.js `createBoundingBox` (lines 247-268): rectangle around the route
waypoints, expanded by `bufferKm / 111` degrees of latitude and by
`bufferKm / (111 * cos(mean latitude))` degrees of longitude. -/
noncomputable def createBoundingBox (routeAirports : List Point) (bufferKm : ℝ) : BoundingBox :=
  let latBuffer := bufferKm / 111
  let lonBuffer := bufferKm / lonDivisor routeAirports
  ⟨boxMinLat routeAirports - latBuffer,
   boxMaxLat routeAirports + latBuffer,
   boxMinLon routeAirports - lonBuffer,
   boxMaxLon routeAirports + lonBuffer⟩

/-- geo.js `isWithinBoundingBox` (lines 276-279): inclusive range test on
both axes. -/
def isWithinBoundingBox (point : Point) (bounds : BoundingBox) : Prop :=
  bounds.minLat ≤ point.lat ∧ point.lat ≤ bounds.maxLat ∧
    bounds.minLon ≤ point.lon ∧ point.lon ≤ bounds.maxLon

/-- geo.js `bearing` (lines 381-390): initial bearing in radians,
`Math.atan2(x, y)` of the two spherical-trigonometry terms. -/
noncomputable def bearing (start stop : Point) : ℝ :=
  let lat1 := toRad start.lat
  let lat2 := toRad stop.lat
  let dLon := toRad (stop.lon - start.lon)
  let x := Real.sin dLon * Real.cos lat2
  let y := Real.cos lat1 * Real.sin lat2 - Real.sin lat1 * Real.cos lat2 * Real.cos dLon
  atan2 x y

/-- geo.js `normalizeAngle` (lines 406-410): brings an angle into [-π, π] by
repeatedly subtracting/adding 2π; closed form of the two while loops (the
first loop runs `⌈(angle-π)/(2π)⌉` times when `angle > π`, the second
`⌈(-π-angle)/(2π)⌉` times when `angle < -π`, and at most one of them runs). -/
noncomputable def normalizeAngle (angle : ℝ) : ℝ :=
  if Real.pi < angle then
    angle - 2 * Real.pi * (⌈(angle - Real.pi) / (2 * Real.pi)⌉ : ℤ)
  else if angle < -Real.pi then
    angle + 2 * Real.pi * (⌈(-Real.pi - angle) / (2 * Real.pi)⌉ : ℤ)
  else angle

/-- geo.js `pointToSegmentDistance` (lines 331-373): distance in km from a
point to a great-circle segment, with degenerate-segment epsilon check,
behind-start / beyond-end endpoint fallbacks, and clamped cross-track
formula in the interior case. -/
noncomputable def pointToSegmentDistance (point start stop : Point) : ℝ :=
  let distToStart := haversineDistance start point
  let distToEnd := haversineDistance stop point
  let segmentLength := haversineDistance start stop
  if segmentLength < 0.001 then distToStart
  else
    let bearingStartEnd := bearing start stop
    let bearingStartPoint := bearing start point
    let angleStart := |normalizeAngle (bearingStartPoint - bearingStartEnd)|
    if Real.pi / 2 < angleStart then distToStart
    else
      let bearingEndStart := bearing stop start
      let bearingEndPoint := bearing stop point
      let angleEnd := |normalizeAngle (bearingEndPoint - bearingEndStart)|
      if Real.pi / 2 < angleEnd then distToEnd
      else
        let d13 := distToStart / 6371
        let sinCrossTrack := Real.sin d13 * Real.sin (bearingStartPoint - bearingStartEnd)
        let clampedSin := max (-1) (min 1 sinCrossTrack)
        |Real.arcsin clampedSin * 6371|

/-- Minimum of two extended distances, `none` standing for JS `Infinity`
(the initial `minDistance` accumulator of `getDistanceFromPath`). -/
def minOpt : Option ℝ → Option ℝ → Option ℝ
  | none, b => b
  | some x, none => some x
  | some x, some y => some (min x y)

/-- One iteration of the segment loop of geo.js `getDistanceFromPath`
(lines 290-318): `none` when the iteration executes `continue` (first-segment
origin cutoff or last-segment destination cutoff), otherwise the
point-to-segment distance.  The `getD` default is never reached: the loop
index is always below `pathPoints.length - 1`. -/
noncomputable def gdfpStep (point : Point) (pathPoints : List Point) (i : ℕ) : Option ℝ :=
  let start := pathPoints.getD i ⟨0, 0⟩
  let stop := pathPoints.getD (i + 1) ⟨0, 0⟩
  if i = 0 ∧ Real.pi / 2 < |normalizeAngle (bearing start point - bearing start stop)| then
    none
  else if i = pathPoints.length - 2 ∧
      |normalizeAngle (bearing stop point - bearing start stop)| < Real.pi / 2 then
    none
  else
    some (pointToSegmentDistance point start stop)

/-- geo.js `getDistanceFromPath` (lines 287-321): minimum over the per-segment
contributions, starting from `Infinity` (`none`). -/
noncomputable def getDistanceFromPath (point : Point) (pathPoints : List Point) : Option ℝ :=
  (List.range (pathPoints.length - 1)).foldl (fun acc i => minOpt acc (gdfpStep point pathPoints i)) none

/-- A landmark record: coordinates, tier, and opaque display metadata
(the geometry engine reads only `lat`, `lon`, `tier`). -/
structure Landmark where
  lat : ℝ
  lon : ℝ
  tier : ℕ
  name : String

/-- The tier → corridor-radius table shape of landmarks.js `TIER_RADIUS_KM`
(keys 1, 2, 3).  The source fixes the table to `⟨80, 32, 8⟩`; it is abstracted
as a parameter so that claims quantifying over changed radii are statable. -/
structure TierTable where
  t1 : ℝ
  t2 : ℝ
  t3 : ℝ

/-- landmarks.js `TIER_RADIUS_KM` (lines 13-17): 80 km for tier 1, 32 km for
tier 2, 8 km for tier 3. -/
def TIER_RADIUS_KM : TierTable := ⟨80, 32, 8⟩

/-- JS `TIER_RADIUS_KM[tier]`: `none` models the `undefined` obtained for a
key outside {1, 2, 3}. -/
def tierLookup (table : TierTable) (tier : ℕ) : Option ℝ :=
  if tier = 1 then some table.t1
  else if tier = 2 then some table.t2
  else if tier = 3 then some table.t3
  else none

/-- The JS comparison `distanceKm <= tierRadiusKm` where `distanceKm` may be
`Infinity` (`none`) and `tierRadiusKm` may be `undefined` (`none`): both make
the comparison false. -/
def distLE : Option ℝ → Option ℝ → Prop
  | some d, some r => d ≤ r
  | _, _ => False

/-- `filterLandmarksInCorridor` (map module, lines 348-375), abstracted over
the tier radius table: early-return on empty inputs, bounding-box prefilter
with buffer `max tier radius + 50` km, then the per-tier corridor distance
check. -/
noncomputable def filterLandmarksInCorridorT (table : TierTable)
    (landmarks : List Landmark) (routeAirports : List Point) : List Landmark :=
  if landmarks = [] ∨ routeAirports = [] then []
  else
    let maxRadiusKm := max table.t1 (max table.t2 table.t3)
    let bounds := createBoundingBox routeAirports (maxRadiusKm + 50)
    let preFiltered := landmarks.filter fun lm =>
      decide (isWithinBoundingBox ⟨lm.lat, lm.lon⟩ bounds)
    let pathPoints := routeAirports.map fun a => (⟨a.lat, a.lon⟩ : Point)
    preFiltered.filter fun lm =>
      decide (distLE (getDistanceFromPath ⟨lm.lat, lm.lon⟩ pathPoints) (tierLookup table lm.tier))

/-- `filterLandmarksInCorridor` as in the source, with the table fixed to the
configured `TIER_RADIUS_KM`. -/
noncomputable def filterLandmarksInCorridor (landmarks : List Landmark)
    (routeAirports : List Point) : List Landmark :=
  filterLandmarksInCorridorT TIER_RADIUS_KM landmarks routeAirports

/-! ### General helper lemmas -/

/-- Rebuilding a `Point` from its fields is the identity (the JS code copies
`{lat: a.lat, lon: a.lon}` records). -/
lemma map_mk_eta (l : List Point) : (l.map fun a => (⟨a.lat, a.lon⟩ : Point)) = l := by
  have h : (fun a : Point => (⟨a.lat, a.lon⟩ : Point)) = id := funext fun a => rfl
  rw [h, List.map_id]

/-- Membership in the corridor filter output, for a nonempty route:
in the candidate list, inside the bounding box built with buffer
(max tier radius + 50), and path distance at most the tier's radius. -/
lemma mem_filterT {table : TierTable} {lms : List Landmark} {route : List Point}
    {lm : Landmark} (hr : route ≠ []) :
    lm ∈ filterLandmarksInCorridorT table lms route ↔
      lm ∈ lms ∧
        isWithinBoundingBox ⟨lm.lat, lm.lon⟩
          (createBoundingBox route (max table.t1 (max table.t2 table.t3) + 50)) ∧
        distLE (getDistanceFromPath ⟨lm.lat, lm.lon⟩ route) (tierLookup table lm.tier) := by
  rw [filterLandmarksInCorridorT]
  by_cases hl : lms = []
  · subst hl
    simp
  · rw [if_neg (by simp [hl, hr])]
    simp only [List.mem_filter, decide_eq_true_eq, map_mk_eta]
    tauto

/-- An angle already in [-π, π] is left unchanged by `normalizeAngle`. -/
lemma normalizeAngle_eq_self {x : ℝ} (h1 : -Real.pi ≤ x) (h2 : x ≤ Real.pi) :
    normalizeAngle x = x := by
  rw [normalizeAngle, if_neg (not_lt.2 h2), if_neg (not_lt.2 (neg_le.1 (neg_neg Real.pi ▸ neg_le_neg h1)))]

/-- `atan2 y 0 = π/2` for positive `y`. -/
lemma atan2_pos_zero {y : ℝ} (hy : 0 < y) : atan2 y 0 = Real.pi / 2 := by
  rw [atan2, if_neg (lt_irrefl 0), if_neg (lt_irrefl 0), if_pos hy]

/-- `atan2 y 0 = -(π/2)` for negative `y`. -/
lemma atan2_neg_zero {y : ℝ} (hy : y < 0) : atan2 y 0 = -(Real.pi / 2) := by
  rw [atan2, if_neg (lt_irrefl 0), if_neg (lt_irrefl 0), if_neg (not_lt.2 hy.le), if_pos hy]

/-- `atan2 (sin t) (cos t) = t` on [0, π/2). -/
lemma atan2_sin_cos {t : ℝ} (h1 : 0 ≤ t) (h2 : t < Real.pi / 2) :
    atan2 (Real.sin t) (Real.cos t) = t := by
  have hc : 0 < Real.cos t :=
    Real.cos_pos_of_mem_Ioo ⟨by linarith [Real.pi_pos], h2⟩
  rw [atan2, if_pos hc, ← Real.tan_eq_sin_div_cos]
  exact Real.arctan_tan (by linarith [Real.pi_pos]) h2

/-! ### Fold bounds for the bounding-box minima/maxima -/

lemma foldl_min_le_init (g : Point → ℝ) (l : List Point) :
    ∀ init : ℝ, l.foldl (fun m a => min m (g a)) init ≤ init := by
  induction l with
  | nil => intro init; exact le_refl _
  | cons a t ih =>
      intro init
      exact le_trans (ih (min init (g a))) (min_le_left _ _)

lemma foldl_min_le_mem (g : Point → ℝ) (l : List Point) :
    ∀ init : ℝ, ∀ w ∈ l, l.foldl (fun m a => min m (g a)) init ≤ g w := by
  induction l with
  | nil => intro _ w hw; cases hw
  | cons a t ih =>
      intro init w hw
      rcases List.mem_cons.1 hw with h | h
      · subst h
        exact le_trans (foldl_min_le_init g t _) (min_le_right _ _)
      · exact ih _ w h

lemma le_foldl_min (g : Point → ℝ) (l : List Point) :
    ∀ init c : ℝ, c ≤ init → (∀ w ∈ l, c ≤ g w) →
      c ≤ l.foldl (fun m a => min m (g a)) init := by
  induction l with
  | nil => intro init c hc _; exact hc
  | cons a t ih =>
      intro init c hc hall
      exact ih _ _ (le_min hc (hall a (List.mem_cons_self a t)))
        (fun w hw => hall w (List.mem_cons_of_mem a hw))

lemma foldl_max_init_le (g : Point → ℝ) (l : List Point) :
    ∀ init : ℝ, init ≤ l.foldl (fun m a => max m (g a)) init := by
  induction l with
  | nil => intro init; exact le_refl _
  | cons a t ih =>
      intro init
      exact le_trans (le_max_left _ _) (ih (max init (g a)))

lemma foldl_max_mem_le (g : Point → ℝ) (l : List Point) :
    ∀ init : ℝ, ∀ w ∈ l, g w ≤ l.foldl (fun m a => max m (g a)) init := by
  induction l with
  | nil => intro _ w hw; cases hw
  | cons a t ih =>
      intro init w hw
      rcases List.mem_cons.1 hw with h | h
      · subst h
        exact le_trans (le_max_right _ _) (foldl_max_init_le g t _)
      · exact ih _ w h

lemma foldl_max_le (g : Point → ℝ) (l : List Point) :
    ∀ init c : ℝ, init ≤ c → (∀ w ∈ l, g w ≤ c) →
      l.foldl (fun m a => max m (g a)) init ≤ c := by
  induction l with
  | nil => intro init c hc _; exact hc
  | cons a t ih =>
      intro init c hc hall
      exact ih _ _ (max_le hc (hall a (List.mem_cons_self a t)))
        (fun w hw => hall w (List.mem_cons_of_mem a hw))

lemma boxMinLat_le {ws : List Point} {w : Point} (h : w ∈ ws) : boxMinLat ws ≤ w.lat := by
  cases ws with
  | nil => cases h
  | cons v t =>
      rcases List.mem_cons.1 h with hv | hv
      · subst hv; exact foldl_min_le_init _ _ _
      · exact foldl_min_le_mem _ _ _ _ hv

lemma le_boxMaxLat {ws : List Point} {w : Point} (h : w ∈ ws) : w.lat ≤ boxMaxLat ws := by
  cases ws with
  | nil => cases h
  | cons v t =>
      rcases List.mem_cons.1 h with hv | hv
      · subst hv; exact foldl_max_init_le _ _ _
      · exact foldl_max_mem_le _ _ _ _ hv

lemma boxMinLon_le {ws : List Point} {w : Point} (h : w ∈ ws) : boxMinLon ws ≤ w.lon := by
  cases ws with
  | nil => cases h
  | cons v t =>
      rcases List.mem_cons.1 h with hv | hv
      · subst hv; exact foldl_min_le_init _ _ _
      · exact foldl_min_le_mem _ _ _ _ hv

lemma le_boxMaxLon {ws : List Point} {w : Point} (h : w ∈ ws) : w.lon ≤ boxMaxLon ws := by
  cases ws with
  | nil => cases h
  | cons v t =>
      rcases List.mem_cons.1 h with hv | hv
      · subst hv; exact foldl_max_init_le _ _ _
      · exact foldl_max_mem_le _ _ _ _ hv

/-- For a list of waypoints with latitudes in [-90, 90], the mean latitude of
`createBoundingBox` also lies in [-90, 90] (the empty list has mean 0). -/
lemma meanLat_bounds {ws : List Point}
    (hlat : ∀ v ∈ ws, -90 ≤ v.lat ∧ v.lat ≤ 90) :
    -90 ≤ (boxMinLat ws + boxMaxLat ws) / 2 ∧ (boxMinLat ws + boxMaxLat ws) / 2 ≤ 90 := by
  cases ws with
  | nil => norm_num [boxMinLat, boxMaxLat]
  | cons v t =>
      have hv := hlat v (List.mem_cons_self v t)
      have ht : ∀ w ∈ t, -90 ≤ w.lat ∧ w.lat ≤ 90 :=
        fun w hw => hlat w (List.mem_cons_of_mem v hw)
      have h1 : -90 ≤ boxMinLat (v :: t) :=
        le_foldl_min _ _ _ _ hv.1 (fun w hw => (ht w hw).1)
      have h2 : boxMinLat (v :: t) ≤ 90 :=
        le_trans (foldl_min_le_init _ _ _) hv.2
      have h3 : -90 ≤ boxMaxLat (v :: t) :=
        le_trans hv.1 (foldl_max_init_le _ _ _)
      have h4 : boxMaxLat (v :: t) ≤ 90 :=
        foldl_max_le _ _ _ _ hv.2 (fun w hw => (ht w hw).2)
      constructor <;> [linarith; linarith]

/-- With the mean latitude in [-90, 90] the longitude divisor is nonnegative. -/
lemma lonDivisor_nonneg {ws : List Point}
    (hlat : ∀ v ∈ ws, -90 ≤ v.lat ∧ v.lat ≤ 90) : 0 ≤ lonDivisor ws := by
  obtain ⟨h1, h2⟩ := meanLat_bounds hlat
  have hpi := Real.pi_pos
  apply mul_nonneg (by norm_num)
  apply Real.cos_nonneg_of_mem_Icc
  constructor
  · rw [toRad]; nlinarith
  · rw [toRad]; nlinarith

/-! ### Evaluation lemmas for equatorial points -/

/-- Bearing between two equatorial points, eastward: π/2. -/
lemma bearing_equator_east (a b : ℝ) (h1 : a < b) (h2 : b - a < 180) :
    bearing ⟨0, a⟩ ⟨0, b⟩ = Real.pi / 2 := by
  have hpi := Real.pi_pos
  have hlo : 0 < (b - a) * Real.pi / 180 := by nlinarith
  have hhi : (b - a) * Real.pi / 180 < Real.pi := by nlinarith
  have hs : 0 < Real.sin ((b - a) * Real.pi / 180) :=
    Real.sin_pos_of_pos_of_lt_pi hlo hhi
  simp only [bearing, toRad]
  norm_num
  rw [atan2_pos_zero hs]

/-- Bearing between two equatorial points, westward: -(π/2). -/
lemma bearing_equator_west (a b : ℝ) (h1 : b < a) (h2 : a - b < 180) :
    bearing ⟨0, a⟩ ⟨0, b⟩ = -(Real.pi / 2) := by
  have hpi := Real.pi_pos
  have hlo : (b - a) * Real.pi / 180 < 0 := by nlinarith
  have hhi : -Real.pi < (b - a) * Real.pi / 180 := by nlinarith
  have hs : Real.sin ((b - a) * Real.pi / 180) < 0 :=
    Real.sin_neg_of_neg_of_neg_pi_lt hlo hhi
  simp only [bearing, toRad]
  norm_num
  rw [atan2_neg_zero hs]

/-- Haversine distance between two equatorial points a short eastward arc
apart: radius times the radian arc. -/
lemma haversine_equator (a b : ℝ) (h1 : a ≤ b) (h2 : b - a < 180) :
    haversineDistance ⟨0, a⟩ ⟨0, b⟩ = 6371 * ((b - a) * Real.pi / 180) := by
  have hpi := Real.pi_pos
  simp only [haversineDistance, toRad]
  norm_num
  have ht0 : 0 ≤ (b - a) * Real.pi / 180 / 2 := by nlinarith
  have ht1 : (b - a) * Real.pi / 180 / 2 < Real.pi / 2 := by nlinarith
  have hs : 0 ≤ Real.sin ((b - a) * Real.pi / 180 / 2) :=
    Real.sin_nonneg_of_nonneg_of_le_pi ht0 (by nlinarith)
  have hc : 0 ≤ Real.cos ((b - a) * Real.pi / 180 / 2) :=
    Real.cos_nonneg_of_mem_Icc ⟨by nlinarith, ht1.le⟩
  have hsq : 1 - Real.sin ((b - a) * Real.pi / 180 / 2) * Real.sin ((b - a) * Real.pi / 180 / 2) =
      Real.cos ((b - a) * Real.pi / 180 / 2) * Real.cos ((b - a) * Real.pi / 180 / 2) := by
    nlinarith [Real.sin_sq_add_cos_sq ((b - a) * Real.pi / 180 / 2)]
  rw [hsq, Real.sqrt_mul_self hs, Real.sqrt_mul_self hc, atan2_sin_cos ht0 ht1]
  ring

/-! ### Concrete evaluation on the spec scenario route A(0,0) → B(0,10) → C(0,20) -/

lemma hav_A_P : haversineDistance ⟨0, 0⟩ ⟨0, 25⟩ = 6371 * (25 * Real.pi / 180) := by
  rw [haversine_equator 0 25 (by norm_num) (by norm_num)]; norm_num

lemma hav_B_P : haversineDistance ⟨0, 10⟩ ⟨0, 25⟩ = 6371 * (15 * Real.pi / 180) := by
  rw [haversine_equator 10 25 (by norm_num) (by norm_num)]; norm_num

lemma hav_A_B : haversineDistance ⟨0, 0⟩ ⟨0, 10⟩ = 6371 * (10 * Real.pi / 180) := by
  rw [haversine_equator 0 10 (by norm_num) (by norm_num)]; norm_num

lemma bear_A_B : bearing ⟨0, 0⟩ ⟨0, 10⟩ = Real.pi / 2 :=
  bearing_equator_east 0 10 (by norm_num) (by norm_num)

lemma bear_A_P : bearing ⟨0, 0⟩ ⟨0, 25⟩ = Real.pi / 2 :=
  bearing_equator_east 0 25 (by norm_num) (by norm_num)

lemma bear_B_A : bearing ⟨0, 10⟩ ⟨0, 0⟩ = -(Real.pi / 2) :=
  bearing_equator_west 10 0 (by norm_num) (by norm_num)

lemma bear_B_P : bearing ⟨0, 10⟩ ⟨0, 25⟩ = Real.pi / 2 :=
  bearing_equator_east 10 25 (by norm_num) (by norm_num)

lemma bear_B_C : bearing ⟨0, 10⟩ ⟨0, 20⟩ = Real.pi / 2 :=
  bearing_equator_east 10 20 (by norm_num) (by norm_num)

lemma bear_C_P : bearing ⟨0, 20⟩ ⟨0, 25⟩ = Real.pi / 2 :=
  bearing_equator_east 20 25 (by norm_num) (by norm_num)

/-- Angle difference π/2 - π/2 stays 0 through `normalizeAngle`. -/
lemma normalize_half_sub_half : normalizeAngle (Real.pi / 2 - Real.pi / 2) = 0 := by
  have hpi := Real.pi_pos
  rw [sub_self]
  exact normalizeAngle_eq_self (by linarith) (by linarith)

/-- Angle difference π/2 - (-(π/2)) normalizes to π. -/
lemma normalize_half_sub_neg_half :
    normalizeAngle (Real.pi / 2 - -(Real.pi / 2)) = Real.pi := by
  have hpi := Real.pi_pos
  have h : Real.pi / 2 - -(Real.pi / 2) = Real.pi := by ring
  rw [h]
  exact normalizeAngle_eq_self (by linarith) le_rfl

/-- On segment A–B, the point P(0,25) lies beyond the segment end B, so
`pointToSegmentDistance` falls back to the distance to B, ≈ 1668 km. -/
lemma p2sd_scenario : pointToSegmentDistance ⟨0, 25⟩ ⟨0, 0⟩ ⟨0, 10⟩ = 6371 * (15 * Real.pi / 180) := by
  have hpi := Real.pi_pos
  simp only [pointToSegmentDistance]
  rw [hav_A_P, hav_B_P, hav_A_B, bear_A_B, bear_A_P, bear_B_A, bear_B_P]
  rw [if_neg (by nlinarith [Real.pi_gt_three])]
  rw [normalize_half_sub_half]
  rw [if_neg (by simp; positivity)]
  rw [normalize_half_sub_neg_half]
  rw [if_pos (by rw [abs_of_pos hpi]; linarith)]

/-- Full evaluation of `getDistanceFromPath` for P(0,25) on the two-leg
equatorial route: the last segment is skipped by the destination cutoff, but
the first segment claims the point through the beyond-end fallback, so the
result is the finite distance to B, not Infinity. -/
lemma gdfp_scenario :
    getDistanceFromPath ⟨0, 25⟩ [⟨0, 0⟩, ⟨0, 10⟩, ⟨0, 20⟩] = some (6371 * (15 * Real.pi / 180)) := by
  have hpi := Real.pi_pos
  have hstep0 : gdfpStep ⟨0, 25⟩ [⟨0, 0⟩, ⟨0, 10⟩, ⟨0, 20⟩] 0 = some (6371 * (15 * Real.pi / 180)) := by
    simp only [gdfpStep, List.getD, List.get?, List.length, Option.getD_some]
    rw [bear_A_B, bear_A_P]
    rw [if_neg (by
      rintro ⟨-, habs⟩
      rw [normalize_half_sub_half] at habs
      simp at habs
      linarith)]
    rw [if_neg (by rintro ⟨h0, -⟩; exact absurd h0 (by norm_num))]
    rw [p2sd_scenario]
  have hstep1 : gdfpStep ⟨0, 25⟩ [⟨0, 0⟩, ⟨0, 10⟩, ⟨0, 20⟩] 1 = none := by
    simp only [gdfpStep, List.getD, List.get?, List.length, Option.getD_some]
    rw [bear_B_C, bear_C_P]
    rw [if_neg (by rintro ⟨h0, -⟩; exact absurd h0 (by norm_num))]
    rw [if_pos (by
      refine ⟨by norm_num, ?_⟩
      rw [normalize_half_sub_half]
      simp
      positivity)]
  have hlen : (([⟨0, 0⟩, ⟨0, 10⟩, ⟨0, 20⟩] : List Point).length - 1) = 2 := by
    simp
  rw [getDistanceFromPath, hlen]
  have hrange : List.range 2 = [0, 1] := rfl
  rw [hrange]
  simp only [List.foldl_cons, List.foldl_nil]
  rw [hstep0, hstep1]
  rfl

/-- JS `Infinity <= r` is false for every radius value (including `undefined`). -/
lemma not_distLE_none (r : Option ℝ) : ¬ distLE none r := by
  cases r with
  | none => exact fun h => h
  | some x => exact fun h => h

/-- JS `d <= undefined` is false for every distance value (including `Infinity`). -/
lemma not_distLE_undefined (d : Option ℝ) : ¬ distLE d none := by
  cases d with
  | none => exact fun h => h
  | some x => exact fun h => h

/-! ### Claim theorems -/

/-- Claim C1: for every candidate list, every route of at least 2 waypoints
and the configured tier radius table, a candidate appears in the output of
`filterLandmarksInCorridor` iff it passes the bounding-box prefilter built
with buffer (max tier radius + 50) km and its `getDistanceFromPath` to the
route is at most `TIER_RADIUS_KM` at its tier. -/
theorem C1_corridor_membership_iff (lms : List Landmark) (route : List Point) (lm : Landmark)
    (h2 : 2 ≤ route.length) :
    lm ∈ filterLandmarksInCorridor lms route ↔
      lm ∈ lms ∧
        isWithinBoundingBox ⟨lm.lat, lm.lon⟩
          (createBoundingBox route
            (max TIER_RADIUS_KM.t1 (max TIER_RADIUS_KM.t2 TIER_RADIUS_KM.t3) + 50)) ∧
        distLE (getDistanceFromPath ⟨lm.lat, lm.lon⟩ route) (tierLookup TIER_RADIUS_KM lm.tier) := by
  have hr : route ≠ [] := by
    intro h
    subst h
    simp at h2
  exact mem_filterT hr

/-- Witness for C1 at the spec scenario: route A(0,0) → B(0,10), landmark at
(0,5) with tier 3. -/
theorem C1_corridor_membership_iff_witness :
    (⟨0, 5, 3, "L"⟩ : Landmark) ∈ filterLandmarksInCorridor [⟨0, 5, 3, "L"⟩] [⟨0, 0⟩, ⟨0, 10⟩] ↔
      (⟨0, 5, 3, "L"⟩ : Landmark) ∈ ([⟨0, 5, 3, "L"⟩] : List Landmark) ∧
        isWithinBoundingBox ⟨0, 5⟩
          (createBoundingBox [⟨0, 0⟩, ⟨0, 10⟩]
            (max TIER_RADIUS_KM.t1 (max TIER_RADIUS_KM.t2 TIER_RADIUS_KM.t3) + 50)) ∧
        distLE (getDistanceFromPath ⟨0, 5⟩ [⟨0, 0⟩, ⟨0, 10⟩]) (tierLookup TIER_RADIUS_KM 3) :=
  C1_corridor_membership_iff [⟨0, 5, 3, "L"⟩] [⟨0, 0⟩, ⟨0, 10⟩] ⟨0, 5, 3, "L"⟩ (by simp)

/-- Claim C3: on a two-waypoint route, a point whose bearing from the origin
differs from the route bearing by more than 90° (normalized absolute angle)
gets `getDistanceFromPath = Infinity` (`none`), and is therefore excluded by
the corridor filter for every tier radius table. -/
theorem C3_behind_origin_infinite (A B P : Point)
    (h : Real.pi / 2 < |normalizeAngle (bearing A P - bearing A B)|) :
    getDistanceFromPath P [A, B] = none ∧
      ∀ (T : TierTable) (lms : List Landmark) (lm : Landmark),
        lm.lat = P.lat → lm.lon = P.lon → lm ∉ filterLandmarksInCorridorT T lms [A, B] := by
  have hg : getDistanceFromPath P [A, B] = none := by
    rw [getDistanceFromPath]
    have hlen : (([A, B] : List Point).length - 1) = 1 := by simp
    rw [hlen]
    have hrange : List.range 1 = [0] := rfl
    rw [hrange]
    simp only [List.foldl_cons, List.foldl_nil]
    have hstep : gdfpStep P [A, B] 0 = none := by
      simp only [gdfpStep, List.getD, List.get?, Option.getD_some]
      rw [if_pos ⟨trivial, h⟩]
    rw [hstep]
    rfl
  refine ⟨hg, ?_⟩
  intro T lms lm hlat hlon hmem
  rw [mem_filterT (by simp)] at hmem
  obtain ⟨-, -, hdist⟩ := hmem
  have hp : (⟨lm.lat, lm.lon⟩ : Point) = P := by rw [hlat, hlon]
  rw [hp, hg] at hdist
  exact not_distLE_none _ hdist

/-- Witness for C3: route (0,0) → (0,10), point (0,-5) due west of (and hence
behind) the origin. -/
theorem C3_behind_origin_infinite_witness :
    Real.pi / 2 < |normalizeAngle (bearing ⟨0, 0⟩ ⟨0, -5⟩ - bearing ⟨0, 0⟩ ⟨0, 10⟩)| ∧
      getDistanceFromPath ⟨0, -5⟩ [⟨0, 0⟩, ⟨0, 10⟩] = none := by
  have hpi := Real.pi_pos
  have hb1 : bearing ⟨0, 0⟩ ⟨0, -5⟩ = -(Real.pi / 2) :=
    bearing_equator_west 0 (-5) (by norm_num) (by norm_num)
  have h : Real.pi / 2 < |normalizeAngle (bearing ⟨0, 0⟩ ⟨0, -5⟩ - bearing ⟨0, 0⟩ ⟨0, 10⟩)| := by
    rw [hb1, bear_A_B]
    have he : -(Real.pi / 2) - Real.pi / 2 = -Real.pi := by ring
    rw [he, normalizeAngle_eq_self le_rfl (by linarith), abs_neg, abs_of_pos hpi]
    linarith
  exact ⟨h, (C3_behind_origin_infinite ⟨0, 0⟩ ⟨0, 10⟩ ⟨0, -5⟩ h).1⟩

/-- Claim C7: the output of `filterLandmarksInCorridor` is a sublist of the
input candidate list — the surviving points are the very same input elements,
unmodified, in their original relative order. -/
theorem C7_output_sublist (lms : List Landmark) (route : List Point) :
    List.Sublist (filterLandmarksInCorridor lms route) lms := by
  rw [filterLandmarksInCorridor, filterLandmarksInCorridorT]
  by_cases h : lms = [] ∨ route = []
  · rw [if_pos h]
    exact List.nil_sublist _
  · rw [if_neg h]
    exact List.Sublist.trans (List.filter_sublist _) (List.filter_sublist _)

/-- Claim C8: a segment shorter than the 0.001 km epsilon is degenerate and
`pointToSegmentDistance` returns the distance to its start point. -/
theorem C8_degenerate_segment (point start stop : Point)
    (h : haversineDistance start stop < 0.001) :
    pointToSegmentDistance point start stop = haversineDistance start point := by
  simp only [pointToSegmentDistance]
  rw [if_pos h]

/-- Witness for C8: coincident segment endpoints at the origin. -/
theorem C8_degenerate_segment_witness :
    haversineDistance ⟨0, 0⟩ ⟨0, 0⟩ < 0.001 ∧
      pointToSegmentDistance ⟨0, 5⟩ ⟨0, 0⟩ ⟨0, 0⟩ = haversineDistance ⟨0, 0⟩ ⟨0, 5⟩ := by
  have h0 : haversineDistance ⟨0, 0⟩ ⟨0, 0⟩ = 0 := by
    rw [haversine_equator 0 0 le_rfl (by norm_num)]
    norm_num
  have h : haversineDistance ⟨0, 0⟩ ⟨0, 0⟩ < 0.001 := by
    rw [h0]
    norm_num
  exact ⟨h, C8_degenerate_segment ⟨0, 5⟩ ⟨0, 0⟩ ⟨0, 0⟩ h⟩

/-- Claim C10: the filter is total on degenerate routes and returns the empty
list for every route of fewer than 2 waypoints (empty route: explicit guard;
single waypoint: `getDistanceFromPath` folds over zero segments and yields
Infinity, which exceeds every tier radius). -/
theorem C10_degenerate_route (lms : List Landmark) (route : List Point) (p w : Point)
    (h : route.length < 2) :
    filterLandmarksInCorridor lms route = [] ∧ getDistanceFromPath p [w] = none := by
  refine ⟨?_, rfl⟩
  rw [filterLandmarksInCorridor, filterLandmarksInCorridorT]
  by_cases hg : lms = [] ∨ route = []
  · rw [if_pos hg]
  · rw [if_neg hg]
    obtain ⟨w0, hw0⟩ : ∃ w0, route = [w0] := by
      cases route with
      | nil => exact absurd (Or.inr rfl) hg
      | cons a t =>
          cases t with
          | nil => exact ⟨a, rfl⟩
          | cons c u =>
              simp only [List.length_cons] at h
              omega
    subst hw0
    rw [List.filter_eq_nil_iff]
    intro a ha
    simp only [decide_eq_true_eq]
    have hnone : getDistanceFromPath ⟨a.lat, a.lon⟩
        (([w0] : List Point).map fun v => (⟨v.lat, v.lon⟩ : Point)) = none := rfl
    rw [hnone]
    exact not_distLE_none _

/-- Witness for C10: a one-waypoint route. -/
theorem C10_degenerate_route_witness :
    ([⟨0, 0⟩] : List Point).length < 2 ∧
      filterLandmarksInCorridor [⟨0, 5, 1, "L"⟩] [⟨0, 0⟩] = [] ∧
      getDistanceFromPath ⟨0, 5⟩ [⟨0, 7⟩] = none := by
  have h : ([⟨0, 0⟩] : List Point).length < 2 := by simp
  obtain ⟨h1, h2⟩ := C10_degenerate_route [⟨0, 5, 1, "L"⟩] [⟨0, 0⟩] ⟨0, 5⟩ ⟨0, 7⟩ h
  exact ⟨h, h1, h2⟩

/-! ### Bounding-box evaluation on the scenario route -/

lemma boxMinLat_scenario : boxMinLat [⟨0, 0⟩, ⟨0, 10⟩, ⟨0, 20⟩] = 0 := by
  simp [boxMinLat]

lemma boxMaxLat_scenario : boxMaxLat [⟨0, 0⟩, ⟨0, 10⟩, ⟨0, 20⟩] = 0 := by
  simp [boxMaxLat]

lemma boxMinLon_scenario : boxMinLon [⟨0, 0⟩, ⟨0, 10⟩, ⟨0, 20⟩] = 0 := by
  simp only [boxMinLon, List.foldl_cons, List.foldl_nil]
  rw [min_eq_left (by norm_num : (0:ℝ) ≤ 10), min_eq_left (by norm_num : (0:ℝ) ≤ 20)]

lemma boxMaxLon_scenario : boxMaxLon [⟨0, 0⟩, ⟨0, 10⟩, ⟨0, 20⟩] = 20 := by
  simp only [boxMaxLon, List.foldl_cons, List.foldl_nil]
  rw [max_eq_right (by norm_num : (0:ℝ) ≤ 10), max_eq_right (by norm_num : (10:ℝ) ≤ 20)]

lemma lonDivisor_scenario : lonDivisor [⟨0, 0⟩, ⟨0, 10⟩, ⟨0, 20⟩] = 111 := by
  rw [lonDivisor, boxMinLat_scenario, boxMaxLat_scenario]
  norm_num [toRad]

/-- Claim C2 counterexample: a tier radius of 1700 km RETAINS the point
(0,25) on the two-leg equatorial route A(0,0) → B(0,10) → C(0,20).  The
destination cutoff does skip the last segment, but the first segment claims
the point via the beyond-end endpoint fallback with finite distance
haversine(B, P) ≈ 1668 km, so the point is not excluded "no matter how large
the tier's radius is". -/
theorem C2_counterexample_large_radius_retains :
    (⟨0, 25, 3, "P"⟩ : Landmark) ∈
      filterLandmarksInCorridorT ⟨80, 32, 1700⟩ [⟨0, 25, 3, "P"⟩] [⟨0, 0⟩, ⟨0, 10⟩, ⟨0, 20⟩] := by
  rw [mem_filterT (by simp)]
  refine ⟨List.mem_singleton_self _, ?_, ?_⟩
  · show isWithinBoundingBox ⟨0, 25⟩
      (createBoundingBox [⟨0, 0⟩, ⟨0, 10⟩, ⟨0, 20⟩] (max (80:ℝ) (max 32 1700) + 50))
    have hmax : max (80:ℝ) (max 32 1700) + 50 = 1750 := by
      rw [max_eq_right (by norm_num : (32:ℝ) ≤ 1700), max_eq_right (by norm_num : (80:ℝ) ≤ 1700)]
      norm_num
    rw [hmax]
    simp only [createBoundingBox, isWithinBoundingBox, boxMinLat_scenario, boxMaxLat_scenario,
      boxMinLon_scenario, boxMaxLon_scenario, lonDivisor_scenario]
    norm_num
  · show distLE (getDistanceFromPath ⟨0, 25⟩ [⟨0, 0⟩, ⟨0, 10⟩, ⟨0, 20⟩]) (tierLookup ⟨80, 32, 1700⟩ 3)
    rw [gdfp_scenario]
    show 6371 * (15 * Real.pi / 180) ≤ 1700
    nlinarith [Real.pi_lt_d2]

/-- Claim C2 (amended): with the configured `TIER_RADIUS_KM` table the point
(0,25) is excluded — it already fails the bounding-box prefilter (25 > 20 +
130/111), and its corridor distance exceeds the largest configured radius —
but `getDistanceFromPath` is NOT Infinity there: the last segment is skipped
by the end-extent cutoff, yet the first segment claims the point through the
beyond-end endpoint fallback with the finite distance haversine(B, P) =
6371·(15π/180) ≈ 1668 km, so the exclusion does not hold for arbitrarily
large tier radii. -/
theorem C2_amended_configured_exclusion :
    filterLandmarksInCorridor [⟨0, 25, 1, "P"⟩] [⟨0, 0⟩, ⟨0, 10⟩, ⟨0, 20⟩] = [] ∧
      getDistanceFromPath ⟨0, 25⟩ [⟨0, 0⟩, ⟨0, 10⟩, ⟨0, 20⟩] = some (6371 * (15 * Real.pi / 180)) ∧
      80 < 6371 * (15 * Real.pi / 180) := by
  refine ⟨?_, gdfp_scenario, by nlinarith [Real.pi_gt_three]⟩
  rw [filterLandmarksInCorridor, List.eq_nil_iff_forall_not_mem]
  intro a ha
  rw [mem_filterT (by simp)] at ha
  obtain ⟨hmem, hbox, -⟩ := ha
  rw [List.mem_singleton] at hmem
  subst hmem
  revert hbox
  have hmax : max TIER_RADIUS_KM.t1 (max TIER_RADIUS_KM.t2 TIER_RADIUS_KM.t3) + 50 = 130 := by
    show max (80:ℝ) (max 32 8) + 50 = 130
    rw [max_eq_left (by norm_num : (8:ℝ) ≤ 32), max_eq_left (by norm_num : (32:ℝ) ≤ 80)]
    norm_num
  rw [hmax]
  simp only [createBoundingBox, isWithinBoundingBox, boxMinLat_scenario, boxMaxLat_scenario,
    boxMinLon_scenario, boxMaxLon_scenario, lonDivisor_scenario]
  intro hbox
  have h4 := hbox.2.2.2
  norm_num at h4

/-- Claim C4 counterexample: at a route on the pole the longitude divisor
`111 * cos(toRad(mean latitude))` of `createBoundingBox` is exactly 0 — it is
not clamped to any positive epsilon floor — and the longitude buffer
degenerates (real-model division by zero gives 0, leaving the box unexpanded
in longitude). -/
theorem C4_counterexample_divisor_zero :
    lonDivisor [⟨90, 0⟩] = 0 ∧
      (createBoundingBox [⟨90, 0⟩] 130).minLon = 0 ∧
      (createBoundingBox [⟨90, 0⟩] 130).maxLon = 0 := by
  have hdiv : lonDivisor [⟨90, 0⟩] = 0 := by
    rw [lonDivisor]
    have h1 : boxMinLat [⟨90, 0⟩] = 90 := rfl
    have h2 : boxMaxLat [⟨90, 0⟩] = 90 := rfl
    rw [h1, h2]
    have h3 : toRad ((90 + 90) / 2) = Real.pi / 2 := by
      rw [toRad]
      ring
    rw [h3, Real.cos_pi_div_two, mul_zero]
  refine ⟨hdiv, ?_, ?_⟩
  · simp only [createBoundingBox]
    rw [hdiv]
    norm_num [boxMinLon]
  · simp only [createBoundingBox]
    rw [hdiv]
    norm_num [boxMaxLon]

/-- Claim C4 (amended): `createBoundingBox` performs no clamping of the
divisor — at mean latitude ±90 it is exactly 0 in the real model (see the
counterexample) — but away from the poles, for a mean latitude strictly
between -90 and 90, the divisor is strictly positive, so a positive buffer
yields a finite, strictly expanded longitude range. -/
theorem C4_amended_positive_divisor (ws : List Point) (b : ℝ)
    (h1 : -90 < (boxMinLat ws + boxMaxLat ws) / 2)
    (h2 : (boxMinLat ws + boxMaxLat ws) / 2 < 90) (hb : 0 < b) :
    0 < lonDivisor ws ∧
      (createBoundingBox ws b).minLon < boxMinLon ws ∧
      boxMaxLon ws < (createBoundingBox ws b).maxLon := by
  have hpi := Real.pi_pos
  have hdiv : 0 < lonDivisor ws := by
    rw [lonDivisor]
    apply mul_pos (by norm_num)
    apply Real.cos_pos_of_mem_Ioo
    constructor
    · rw [toRad]
      nlinarith
    · rw [toRad]
      nlinarith
  have hbuf : 0 < b / lonDivisor ws := div_pos hb hdiv
  refine ⟨hdiv, ?_, ?_⟩
  · simp only [createBoundingBox]
    linarith
  · simp only [createBoundingBox]
    linarith

/-- Witness for the amended C4 at an equatorial one-point route. -/
theorem C4_amended_positive_divisor_witness :
    (-90 < (boxMinLat [(⟨0, 0⟩ : Point)] + boxMaxLat [(⟨0, 0⟩ : Point)]) / 2 ∧
        (boxMinLat [(⟨0, 0⟩ : Point)] + boxMaxLat [(⟨0, 0⟩ : Point)]) / 2 < 90 ∧ (0:ℝ) < 130) ∧
      0 < lonDivisor [(⟨0, 0⟩ : Point)] ∧
      (createBoundingBox [(⟨0, 0⟩ : Point)] 130).minLon < boxMinLon [(⟨0, 0⟩ : Point)] ∧
      boxMaxLon [(⟨0, 0⟩ : Point)] < (createBoundingBox [(⟨0, 0⟩ : Point)] 130).maxLon := by
  have h1 : -90 < (boxMinLat [(⟨0, 0⟩ : Point)] + boxMaxLat [(⟨0, 0⟩ : Point)]) / 2 := by
    norm_num [boxMinLat, boxMaxLat]
  have h2 : (boxMinLat [(⟨0, 0⟩ : Point)] + boxMaxLat [(⟨0, 0⟩ : Point)]) / 2 < 90 := by
    norm_num [boxMinLat, boxMaxLat]
  exact ⟨⟨h1, h2, by norm_num⟩, C4_amended_positive_divisor [⟨0, 0⟩] 130 h1 h2 (by norm_num)⟩

/-- Claim C5: every waypoint of a route with latitudes in [-90, 90] lies
inside the bounding box generated from that route with any nonnegative
buffer. -/
theorem C5_waypoint_in_own_box (ws : List Point) (b : ℝ) (w : Point) (hw : w ∈ ws)
    (hlat : ∀ v ∈ ws, -90 ≤ v.lat ∧ v.lat ≤ 90) (hb : 0 ≤ b) :
    isWithinBoundingBox w (createBoundingBox ws b) := by
  have hlatb : 0 ≤ b / 111 := by positivity
  have hlonb : 0 ≤ b / lonDivisor ws := div_nonneg hb (lonDivisor_nonneg hlat)
  have h1 := boxMinLat_le hw
  have h2 := le_boxMaxLat hw
  have h3 := boxMinLon_le hw
  have h4 := le_boxMaxLon hw
  simp only [createBoundingBox, isWithinBoundingBox]
  exact ⟨by linarith, by linarith, by linarith, by linarith⟩

/-- Witness for C5 at the one-point equatorial route with buffer 0. -/
theorem C5_waypoint_in_own_box_witness :
    ((⟨0, 0⟩ : Point) ∈ ([⟨0, 0⟩] : List Point) ∧
        (∀ v ∈ ([⟨0, 0⟩] : List Point), -90 ≤ v.lat ∧ v.lat ≤ 90) ∧ (0:ℝ) ≤ 0) ∧
      isWithinBoundingBox ⟨0, 0⟩ (createBoundingBox [⟨0, 0⟩] 0) := by
  have hmem : (⟨0, 0⟩ : Point) ∈ ([⟨0, 0⟩] : List Point) := List.mem_singleton_self _
  have hlat : ∀ v ∈ ([⟨0, 0⟩] : List Point), -90 ≤ v.lat ∧ v.lat ≤ 90 := by
    intro v hv
    rw [List.mem_singleton] at hv
    subst hv
    norm_num
  exact ⟨⟨hmem, hlat, le_rfl⟩, C5_waypoint_in_own_box [⟨0, 0⟩] 0 ⟨0, 0⟩ hmem hlat le_rfl⟩

/-! ### Monotonicity helpers for C6 -/

/-- Growing the buffer grows the bounding box (inclusion-wise), provided the
route latitudes are in [-90, 90] so the longitude divisor is nonnegative. -/
lemma bbox_mono {ws : List Point} {b b' : ℝ}
    (hlat : ∀ v ∈ ws, -90 ≤ v.lat ∧ v.lat ≤ 90) (hbb : b ≤ b') {p : Point}
    (h : isWithinBoundingBox p (createBoundingBox ws b)) :
    isWithinBoundingBox p (createBoundingBox ws b') := by
  have hd := lonDivisor_nonneg hlat
  have hlat' : b / 111 ≤ b' / 111 := by linarith
  have hlon' : b / lonDivisor ws ≤ b' / lonDivisor ws := by
    rcases eq_or_lt_of_le hd with h0 | h0
    · rw [← h0, div_zero, div_zero]
    · exact (div_le_div_iff_of_pos_right h0).2 hbb
  simp only [createBoundingBox, isWithinBoundingBox] at h ⊢
  obtain ⟨c1, c2, c3, c4⟩ := h
  exact ⟨by linarith, by linarith, by linarith, by linarith⟩

/-- Pointwise larger tables weaken the per-tier distance comparison. -/
lemma distLE_mono {d : Option ℝ} {tb tc : TierTable} {tier : ℕ}
    (h1 : tb.t1 ≤ tc.t1) (h2 : tb.t2 ≤ tc.t2) (h3 : tb.t3 ≤ tc.t3)
    (h : distLE d (tierLookup tb tier)) : distLE d (tierLookup tc tier) := by
  rw [tierLookup] at h ⊢
  by_cases e1 : tier = 1
  · rw [if_pos e1] at h ⊢
    cases d with
    | none => exact h
    | some x => exact le_trans h h1
  · rw [if_neg e1] at h ⊢
    by_cases e2 : tier = 2
    · rw [if_pos e2] at h ⊢
      cases d with
      | none => exact h
      | some x => exact le_trans h h2
    · rw [if_neg e2] at h ⊢
      by_cases e3 : tier = 3
      · rw [if_pos e3] at h ⊢
        cases d with
        | none => exact h
        | some x => exact le_trans h h3
      · rw [if_neg e3] at h ⊢
        exact absurd h (not_distLE_undefined d)

/-- Claim C6: enlarging tier radii pointwise (in particular increasing one
tier's radius and leaving the others unchanged) can only add points to the
corridor filter output, never remove any, for routes with latitudes in
[-90, 90]. -/
theorem C6_tier_radius_monotone (tb tc : TierTable) (lms : List Landmark) (route : List Point)
    (hlat : ∀ v ∈ route, -90 ≤ v.lat ∧ v.lat ≤ 90)
    (h1 : tb.t1 ≤ tc.t1) (h2 : tb.t2 ≤ tc.t2) (h3 : tb.t3 ≤ tc.t3) :
    filterLandmarksInCorridorT tb lms route ⊆ filterLandmarksInCorridorT tc lms route := by
  intro lm hlm
  by_cases hr : route = []
  · subst hr
    rw [filterLandmarksInCorridorT, if_pos (Or.inr rfl)] at hlm
    cases hlm
  · rw [mem_filterT hr] at hlm ⊢
    obtain ⟨hmem, hbox, hdist⟩ := hlm
    have hmax : max tb.t1 (max tb.t2 tb.t3) + 50 ≤ max tc.t1 (max tc.t2 tc.t3) + 50 := by
      have hm := max_le_max h1 (max_le_max h2 h3)
      linarith
    exact ⟨hmem, bbox_mono hlat hmax hbox, distLE_mono h1 h2 h3 hdist⟩

/-- Witness for C6: increasing tier 3's radius from 8 to 9 km. -/
theorem C6_tier_radius_monotone_witness :
    ((∀ v ∈ ([⟨0, 0⟩, ⟨0, 10⟩] : List Point), -90 ≤ v.lat ∧ v.lat ≤ 90) ∧
        (80:ℝ) ≤ 80 ∧ (32:ℝ) ≤ 32 ∧ (8:ℝ) ≤ 9) ∧
      filterLandmarksInCorridorT ⟨80, 32, 8⟩ [⟨0, 5, 3, "L"⟩] [⟨0, 0⟩, ⟨0, 10⟩] ⊆
        filterLandmarksInCorridorT ⟨80, 32, 9⟩ [⟨0, 5, 3, "L"⟩] [⟨0, 0⟩, ⟨0, 10⟩] := by
  have hlat : ∀ v ∈ ([⟨0, 0⟩, ⟨0, 10⟩] : List Point), -90 ≤ v.lat ∧ v.lat ≤ 90 := by
    intro v hv
    rcases List.mem_cons.1 hv with h | h
    · subst h
      norm_num
    · rw [List.mem_singleton] at h
      subst h
      norm_num
  exact ⟨⟨hlat, le_rfl, le_rfl, by norm_num⟩,
    C6_tier_radius_monotone ⟨80, 32, 8⟩ ⟨80, 32, 9⟩ [⟨0, 5, 3, "L"⟩] [⟨0, 0⟩, ⟨0, 10⟩]
      hlat le_rfl le_rfl (by norm_num)⟩

end Corridor
